import Mathlib

/-!
# Verification of the `@pandabox/unplugin` plugin core

A shallow embedding of `src/packages/unplugin/src/plugin/core.ts` (the
unplugin factory for Panda CSS): virtual-module identity resolution, lazy
memoized context initialization, the transform pipeline bookkeeping, the
watcher / invalidation handlers and option resolution.

External collaborators (the style engine, configuration loading, the host
bundler's module graph) are modelled by the narrow interface the core uses
from them: opaque values carried in the state, and parameter functions.
-/

namespace Pandabox

/-! ## Virtual Module Registry (`createVirtualModuleId`, `ids`, `resolveId`) -/

/-- A `{id, resolved}` pair for one virtual module, as built by
`createVirtualModuleId` in core.ts. -/
structure VirtualModuleId where
  id : String
  resolved : String
deriving DecidableEq, Repr

/-- `createVirtualModuleId`: prefixes the logical name with `virtual:panda`
and derives the resolved id by prepending the NUL character. -/
def createVirtualModuleId (id : String) : VirtualModuleId :=
  let base := "virtual:panda" ++ id
  { id := base, resolved := "\x00" ++ base }

/-- The registry of known virtual modules (`ids` in core.ts). -/
structure VirtualIds where
  css : VirtualModuleId
  inlineCva : VirtualModuleId
  compoundVariants : VirtualModuleId
deriving DecidableEq, Repr

/-- The `ids` constant of core.ts. -/
def ids : VirtualIds :=
  { css := createVirtualModuleId ".css"
    inlineCva := createVirtualModuleId "-inline-cva"
    compoundVariants := createVirtualModuleId "-compound-variants" }

/-- The `resolveId` hook: answers only for the three known symbolic ids,
returning their resolved counterpart; `none` models the `undefined`
("not mine") sentinel returned for every other id. -/
def resolveId (id : String) : Option String :=
  if id = ids.css.id then some ids.css.resolved
  else if id = ids.inlineCva.id then some ids.inlineCva.resolved
  else if id = ids.compoundVariants.id then some ids.compoundVariants.resolved
  else none

/-! ## Plugin options (`PandaPluginOptions`, `resolveOptions`) -/

/-- One `boolean | 'auto'` flag value of the `optimizeJs` option. -/
inductive OptFlag
  | enabled
  | disabled
  | auto
deriving DecidableEq, Repr

/-- The object form of `optimizeJs`: one optional flag per artifact kind.
`none` models an absent key. -/
structure OptimizeJsMap where
  css : Option OptFlag
  cva : Option OptFlag
  pattern : Option OptFlag
  recipe : Option OptFlag
  jsxFactory : Option OptFlag
  jsxPattern : Option OptFlag
deriving DecidableEq, Repr

/-- The `optimizeJs` option value: a boolean, the string `'auto'`, or a
per-kind map. -/
inductive OptimizeJs
  | flag (b : Bool)
  | auto
  | map (m : OptimizeJsMap)
deriving DecidableEq, Repr

/-- Raw plugin options as passed by the user. `none` fields model absent /
`undefined` properties. The user transform callback is kept abstract as an
optional function value; include/exclude matchers are opaque strings here
(their internals are external `@rollup/pluginutils` behavior). -/
structure PandaPluginOptions where
  cwd : Option String
  configPath : Option String
  outfile : Option String
  «include» : Option (List String)
  «exclude» : Option (List String)
  optimizeCss : Option Bool
  optimizeJs : Option OptimizeJs

/-- Options after `resolveOptions`: `cwd` is always present and the
defaulted fields are no longer optional. -/
structure ResolvedOptions where
  cwd : String
  configPath : Option String
  outfile : Option String
  «include» : List String
  «exclude» : List String
  optimizeCss : Bool
  optimizeJs : OptimizeJs

/-- The object-spread normalization inside `resolveOptions`:
`{ css: m.css ?? 'auto', cva: m.cva ?? 'auto', pattern: m.cva ?? 'auto',
recipe: m.cva ?? 'auto', 'jsx-factory': m.cva ?? 'auto',
'jsx-pattern': m.cva ?? 'auto', ...m }` — a present key wins over its
default, an absent one receives the default, and the default for every kind
other than `css` and `cva` is `m.cva ?? 'auto'`. -/
def normalizeOptimizeJsMap (m : OptimizeJsMap) : OptimizeJsMap :=
  { css := some (m.css.getD OptFlag.auto)
    cva := some (m.cva.getD OptFlag.auto)
    pattern := some (m.pattern.getD (m.cva.getD OptFlag.auto))
    recipe := some (m.recipe.getD (m.cva.getD OptFlag.auto))
    jsxFactory := some (m.jsxFactory.getD (m.cva.getD OptFlag.auto))
    jsxPattern := some (m.jsxPattern.getD (m.cva.getD OptFlag.auto)) }

/-- The local `let optimizeJs = options.optimizeJs ?? 'auto'` of
`resolveOptions`, after its conditional object normalization. -/
def localOptimizeJs (options : PandaPluginOptions) : OptimizeJs :=
  let optimizeJs := options.optimizeJs.getD OptimizeJs.auto
  match optimizeJs with
  | OptimizeJs.map m => OptimizeJs.map (normalizeOptimizeJsMap m)
  | o => o

/-- `resolveOptions` from core.ts. Note that the returned record's
`optimizeJs` field is `options.optimizeJs ?? 'auto'` — the raw input — and
not the locally normalized `localOptimizeJs options`, which is discarded. -/
def resolveOptions (options : PandaPluginOptions) : ResolvedOptions :=
  let _discarded := localOptimizeJs options
  { cwd := options.cwd.getD ""
    configPath := options.configPath
    outfile := options.outfile
    «include» := options.«include».getD ["\\.[cm]?[jt]sx?$"]
    «exclude» := options.«exclude».getD ["node_modules", "styled-system"]
    optimizeCss := options.optimizeCss.getD true
    optimizeJs := options.optimizeJs.getD OptimizeJs.auto }

/-! ## Context Manager (`init`, `getCtx`)

The factory closes over two mutable cells, `_ctx` and `initPromise`.
`init()` memoizes the pending promise: a second call returns the stored
promise instead of starting another `loadConfig`. We model the cells plus
two effect counters (number of `loadConfig` invocations, number of
`createContext` constructions) and promises by numeric identities. -/

/-- The closure state of the factory around `init`: the memoized promise
(by identity), the `_ctx` cell (a context reference identity once
constructed), and counters for the two side effects the claim counts. -/
structure InitState where
  initPromise : Option Nat
  ctx : Option Nat
  loadCount : Nat
  ctxConstructions : Nat
deriving DecidableEq, Repr

/-- The factory's initial closure state: no promise, no context. -/
def initState0 : InitState :=
  { initPromise := none, ctx := none, loadCount := 0, ctxConstructions := 0 }

/-- The synchronous body of `init()`: if `initPromise` is set it is returned
unchanged; otherwise `loadConfig` is started (one load side effect) and the
new pending promise is stored and returned. Promise identities are drawn
from `loadCount`. -/
def init (s : InitState) : InitState × Nat :=
  match s.initPromise with
  | some p => (s, p)
  | none =>
    let p := s.loadCount
    ({ s with initPromise := some p, loadCount := s.loadCount + 1 }, p)

/-- `n` synchronous `init()` calls in sequence (each `getContext()` caller
runs `init()` before its first suspension point), collecting the promise
each caller awaits. -/
def initCalls : Nat → InitState → InitState × List Nat
  | 0, s => (s, [])
  | n + 1, s =>
    let (s1, p) := init s
    let (s2, ps) := initCalls n s1
    (s2, p :: ps)

/-- Completion of the pending load: the `.then` continuation assigns
`_ctx = createContext(...)` — one context construction. Context reference
identities are drawn from `ctxConstructions`. -/
def completeInit (s : InitState) : InitState :=
  match s.initPromise with
  | none => s
  | some _ =>
    { s with ctx := some s.ctxConstructions, ctxConstructions := s.ctxConstructions + 1 }

/-- What a `getCtx()` caller observes after its awaited promise settles:
`_ctx` if present, else the `not initialized` error. -/
def getCtxResult (s : InitState) : Except String Nat :=
  match s.ctx with
  | none => Except.error "@pandabox/unplugin context not initialized"
  | some c => Except.ok c

/-! ## Shared association-list helpers (for `Map`-valued state) -/

/-- `m.set(k, v)` on an association list: replace the first binding of `k`,
or append one. -/
def setAssoc (k v : String) : List (String × String) → List (String × String)
  | [] => [(k, v)]
  | (k', v') :: rest => if k' = k then (k, v) :: rest else (k', v') :: setAssoc k v rest

/-- `m.get(k)` on an association list. -/
def lookupAssoc (k : String) : List (String × String) → Option String
  | [] => none
  | (k', v) :: rest => if k' = k then some v else lookupAssoc k rest

/-- `m.has(k)` on an association list. -/
def hasAssoc (k : String) (m : List (String × String)) : Bool :=
  (lookupAssoc k m).isSome

/-! ## The live Context and the server-side handlers

`PandaPluginContext` (from create-context.ts, not under src/) is used by
core.ts through: `ctx.files` (a map from file id to source text),
`ctx.root`, `ctx.panda.conf.path`, `ctx.panda.conf.dependencies`,
`ctx.panda.config.dependencies`, `ctx.reloadContext()`, and the composite
`ctx.toCss(ctx.panda.createSheet(), options)`. We model the context by a
record carrying exactly those observables; `css` is the value the composite
`toCss`/`createSheet` computation yields at the current instant, kept
opaque. -/

/-- The live plugin context as seen by core.ts. `ref` is the reference
identity of the object. -/
structure Ctx where
  ref : Nat
  root : String
  files : List (String × String)
  confPath : String
  confDeps : List String
  configDeps : List String
  css : String
deriving DecidableEq, Repr

/-- `ctx.toCss(ctx.panda.createSheet(), options)` computed at this instant:
a fresh sheet from the engine's current registry, serialized. -/
def toCssNow (c : Ctx) : String := c.css

/-- Modelled from the spec: `ensureAbsolute` (ensure-absolute.ts, not under
src/) maps a possibly relative path to an absolute one — an already
absolute path is returned unchanged, a relative one is joined to the
root. -/
def ensureAbsolute (f root : String) : String :=
  if f.data.head? = some '/' then f else root ++ "/" ++ f

/-- Modelled from the spec: `reloadContext` (create-context.ts, not under
src/) discards the memoized configuration and replaces the Context
wholesale with a freshly constructed one — the reference identity changes,
and the fresh context starts with an empty `files` map. The configuration
observables and the recomputed css are left abstract (unchanged here). -/
def reloadContext (c : Ctx) : Ctx :=
  { c with ref := c.ref + 1, files := [] }

/-- The observable effects of one handler run, in program order. -/
inductive Action
  | reload
  | codegen
  | write (path : String) (text : String)
  | invalidate (id : String)
deriving DecidableEq, Repr

/-- Does this action write the artifact to disk? -/
def Action.isWrite : Action → Bool
  | Action.write _ _ => true
  | _ => false

/-- Is this action a module-graph invalidation? -/
def Action.isInvalidate : Action → Bool
  | Action.invalidate _ => true
  | _ => false

/-- The server-side state core.ts interacts with: the live context, the
resolved `outfile` variable (the css artifact's id: either
`ids.css.resolved` or an absolute output path), the host module graph
(the set of module ids it currently holds), and the filesystem contents
at written paths. -/
structure ServerState where
  ctx : Ctx
  outfile : String
  moduleGraph : List String
  fs : List (String × String)
deriving DecidableEq, Repr

/-- The `sources` set built in `configureServer`: the config path and both
dependency lists, each made absolute against `ctx.root`. -/
def sources (c : Ctx) : List String :=
  ([c.confPath] ++ c.confDeps ++ c.configDeps).map (fun f => ensureAbsolute f c.root)

/-- The startup part of `configureServer` after `getCtx()`: when `outfile`
is a real path (not the virtual id), write the current css there; then run
codegen. (The subsequent `watcher.add` calls only subscribe; they are not
modelled as state.) -/
def configureServerStart (st : ServerState) : ServerState × List Action :=
  if st.outfile ≠ ids.css.resolved then
    ({ st with fs := setAssoc st.outfile (toCssNow st.ctx) st.fs },
      [Action.write st.outfile (toCssNow st.ctx), Action.codegen])
  else (st, [Action.codegen])

/-- The `server.watcher.on('change', ...)` handler registered by
`configureServer`: irrelevant files (not in `sources`) return immediately;
a dependency file triggers `ctx.reloadContext()` and then invalidates the
css artifact's module (when the module graph holds it). -/
def onChange (st : ServerState) (file : String) : ServerState × List Action :=
  let filePath := ensureAbsolute file st.ctx.root
  if filePath ∈ sources st.ctx then
    let st1 := { st with ctx := reloadContext st.ctx }
    if st1.moduleGraph.contains st.outfile then
      (st1, [Action.reload, Action.invalidate st.outfile])
    else (st1, [Action.reload])
  else (st, [])

/-- The `handleHotUpdate` hook: the artifact itself and untracked files are
ignored; for a tracked source file the artifact's module (when present in
the module graph) is invalidated and then, when `outfile` is a real path,
the freshly computed css is written to it. -/
def handleHotUpdate (st : ServerState) (file : String) : ServerState × List Action :=
  if file = st.outfile then (st, [])
  else if hasAssoc file st.ctx.files = false then (st, [])
  else if st.moduleGraph.contains st.outfile then
    if st.outfile ≠ ids.css.resolved then
      ({ st with fs := setAssoc st.outfile (toCssNow st.ctx) st.fs },
        [Action.invalidate st.outfile, Action.write st.outfile (toCssNow st.ctx)])
    else (st, [Action.invalidate st.outfile])
  else (st, [])

/-- The `load` hook: the two helper snippets are served as `export `-prefixed
source text (the serialized function bodies are opaque parameters here); any
id other than the artifact's is not ours (`none`); the artifact id is served
the css computed at this instant. -/
def loadHook (inlineCvaText compoundText : String) (st : ServerState) (id : String) :
    Option String :=
  if id = ids.inlineCva.resolved then some ("export " ++ inlineCvaText)
  else if id = ids.compoundVariants.resolved then some ("export " ++ compoundText)
  else if id ≠ st.outfile then none
  else some (toCssNow st.ctx)

/-! ## Transform Pipeline (`transform`)

The hook's collaborators are parameters: the optional user transform
callback, the engine's parser (a function of the file id and the code that
was registered for it), and `tranformPanda` (transform.ts, not under src/,
kept opaque). The state the hook mutates is `ctx.files` and the engine's
source-file registry (`panda.project.addSourceFile`). -/

/-- The `transform` hook's return value when it rewrites code:
`{ code, map }`. -/
structure TransformResult where
  code : String
  map : Option String
deriving DecidableEq, Repr

/-- What the user transform callback may return: nothing (`void`), a
replacement string, or a structured `{ code, map }` result. -/
inductive UserTransformOut
  | void
  | str (s : String)
  | structured (r : TransformResult)

/-- The engine's parse result as core.ts consumes it: only `isEmpty()` is
observed. -/
structure ParseRes where
  isEmpty : Bool
deriving DecidableEq, Repr

/-- The mutable state the transform hook touches: `ctx.files` and the
engine's source-file registry. -/
structure EngineState where
  files : List (String × String)
  registry : List (String × String)
deriving DecidableEq, Repr

/-- The user-transform block of the hook: starts from
`{ code, map: undefined }`; a `void`/falsy result keeps `code`, a string
result replaces `code`, a structured result replaces the whole record. -/
def applyUserTransform (userTransform : Option (String → String → UserTransformOut))
    (id code : String) : TransformResult :=
  let transformResult : TransformResult := { code := code, map := none }
  match userTransform with
  | none => transformResult
  | some f =>
    match f id code with
    | UserTransformOut.void => transformResult
    | UserTransformOut.str s => { transformResult with code := s }
    | UserTransformOut.structured r => r

/-- The `transform(code, id)` hook. `parseOf id registered` stands for
`panda.project.parseSourceFile(id)` after `addSourceFile(id, registered)`;
`optimizeJs` is the resolved option (`!options.optimizeJs` is true only for
the literal `false`); `tranformPanda` is the opaque optimization step.
Returns the new state and the hook's result (`none` models `null`). -/
def transform (userTransform : Option (String → String → UserTransformOut))
    (parseOf : String → String → Option ParseRes)
    (optimizeJs : OptimizeJs)
    (tranformPanda : String → String → TransformResult)
    (st : EngineState) (code id : String) : EngineState × Option TransformResult :=
  let transformResult := applyUserTransform userTransform id code
  let st := { st with registry := setAssoc id transformResult.code st.registry }
  match parseOf id transformResult.code with
  | none => (st, none)
  | some parserResult =>
    let st :=
      if parserResult.isEmpty = false then { st with files := setAssoc id code st.files }
      else st
    if optimizeJs = OptimizeJs.flag false then (st, none)
    else (st, some (tranformPanda code id))

/-! ## Concrete states and collaborators used by witnesses -/

/-- A server state with an outfile configured, one tracked source file, and
the artifact present in the host module graph. -/
def stOutfile : ServerState :=
  { ctx := { ref := 0, root := "/proj"
             files := [("/proj/src/App.tsx", "const cls = css(red)")]
             confPath := "panda.config.ts", confDeps := [], configDeps := []
             css := "@layer reset, base, tokens, recipes, utilities" }
    outfile := "/proj/styled-system/styles.css"
    moduleGraph := ["/proj/styled-system/styles.css"]
    fs := [] }

/-- A server state in pure virtual-module mode (`outfile` option unset), with
one tracked source file and the artifact present in the module graph. -/
def stVirtual : ServerState :=
  { ctx := { ref := 5, root := "/proj"
             files := [("/proj/src/App.tsx", "const cls = css(red)")]
             confPath := "panda.config.ts", confDeps := ["theme.ts"], configDeps := []
             css := "@layer utilities" }
    outfile := ids.css.resolved
    moduleGraph := [ids.css.resolved]
    fs := [] }

/-- A user transform that rewrites the code (prefixes it), to separate the
pre-transform code from the registered code in witnesses. -/
def utPrefix : Option (String → String → UserTransformOut) :=
  some fun _ c => UserTransformOut.str ("use client;" ++ c)

/-- A parser that always finds styling usage. -/
def parseUsage : String → String → Option ParseRes := fun _ _ => some { isEmpty := false }

/-- A parser that always yields no parse result. -/
def parseNone : String → String → Option ParseRes := fun _ _ => none

/-- A parser that parses but finds no styling usage. -/
def parseEmpty : String → String → Option ParseRes := fun _ _ => some { isEmpty := true }

/-- An opaque stand-in for the `tranformPanda` optimization step. -/
def pandaId : String → String → TransformResult := fun c _ => { code := c, map := none }

/-- The empty engine state. -/
def engine0 : EngineState := { files := [], registry := [] }

/-- The trace property claim C3 asserts: a module-graph invalidation is never
followed by a write of the artifact (invalidation happens only after the
recomputation/write completes). -/
def noWriteAfterInvalidate : List Action → Bool
  | [] => true
  | a :: rest =>
    (if a.isInvalidate then rest.all (fun b => !b.isWrite) else true)
      && noWriteAfterInvalidate rest

/-! ## Helper lemmas -/

theorem lookupAssoc_setAssoc_self (k v : String) (m : List (String × String)) :
    lookupAssoc k (setAssoc k v m) = some v := by
  induction m with
  | nil => simp [setAssoc, lookupAssoc]
  | cons hd tl ih =>
    obtain ⟨k', v'⟩ := hd
    by_cases h : k' = k
    · simp [setAssoc, h, lookupAssoc]
    · simp [setAssoc, h, lookupAssoc, ih]

theorem init_memoized (s : InitState) (p : Nat) (h : s.initPromise = some p) :
    init s = (s, p) := by
  unfold init
  rw [h]

theorem transform_parse_none (ut : Option (String → String → UserTransformOut))
    (parseOf : String → String → Option ParseRes)
    (opt : OptimizeJs) (tp : String → String → TransformResult)
    (st : EngineState) (code id : String)
    (hnone : parseOf id (applyUserTransform ut id code).code = none) :
    transform ut parseOf opt tp st code id
      = ({ files := st.files,
            registry := setAssoc id (applyUserTransform ut id code).code st.registry },
          none) := by
  unfold transform
  dsimp only
  rw [hnone]

theorem transform_parse_some (ut : Option (String → String → UserTransformOut))
    (parseOf : String → String → Option ParseRes)
    (opt : OptimizeJs) (tp : String → String → TransformResult)
    (st : EngineState) (code id : String) (pr : ParseRes)
    (hp : parseOf id (applyUserTransform ut id code).code = some pr) :
    transform ut parseOf opt tp st code id
      = (if pr.isEmpty = false then
            ({ files := setAssoc id code st.files,
                registry := setAssoc id (applyUserTransform ut id code).code st.registry },
              if opt = OptimizeJs.flag false then none else some (tp code id))
          else
            ({ files := st.files,
                registry := setAssoc id (applyUserTransform ut id code).code st.registry },
              if opt = OptimizeJs.flag false then none else some (tp code id))) := by
  unfold transform
  dsimp only
  rw [hp]
  by_cases hne : pr.isEmpty = false
  · simp only [if_pos hne]
    split_ifs <;> rfl
  · simp only [if_neg hne]
    split_ifs <;> rfl

theorem initCalls_memoized (n : Nat) (s : InitState) (p : Nat)
    (h : s.initPromise = some p) : initCalls n s = (s, List.replicate n p) := by
  induction n with
  | zero => simp [initCalls]
  | succ k ih => simp [initCalls, init_memoized s p h, ih, List.replicate]

/-- The factory's closure state after the first `init()` call: the pending
promise is memoized, one load started, no context yet. -/
def initState1 : InitState :=
  { initPromise := some 0, ctx := none, loadCount := 1, ctxConstructions := 0 }

theorem initCalls_run (k : Nat) :
    initCalls (k + 1) initState0 = (initState1, List.replicate (k + 1) 0) := by
  have h1 : init initState0 = (initState1, 0) := rfl
  have h2 : initCalls k initState1 = (initState1, List.replicate k 0) :=
    initCalls_memoized k _ 0 rfl
  simp [initCalls, h1, h2, List.replicate]

/-! ## The claims -/

/-- C1. Exactly-once initialization: for every number `N ≥ 1` of
`getContext()` calls issued before the first configuration load completes,
exactly one configuration load is started and exactly one Context is
constructed; every caller awaits the same memoized pending promise, and once
it settles all `N` calls resolve to the identical Context reference. -/
theorem C1_exactly_once_init (N : Nat) (hN : 1 ≤ N) :
    (initCalls N initState0).1.loadCount = 1 ∧
    (initCalls N initState0).2 = List.replicate N 0 ∧
    (completeInit (initCalls N initState0).1).ctxConstructions = 1 ∧
    ∃ c : Nat,
      getCtxResult (completeInit (initCalls N initState0).1) = Except.ok c ∧
      (initCalls N initState0).2.map
          (fun _ => getCtxResult (completeInit (initCalls N initState0).1))
        = List.replicate N (Except.ok c) := by
  obtain ⟨k, rfl⟩ : ∃ k, N = k + 1 :=
    ⟨N - 1, (Nat.succ_pred_eq_of_pos hN).symm⟩
  rw [initCalls_run]
  refine ⟨rfl, rfl, rfl, 0, rfl, ?_⟩
  simp [completeInit, initState1, getCtxResult]

/-- C1 witness: three calls racing before completion — one load, one
construction, all three callers get context reference `0`. -/
theorem C1_exactly_once_init_witness :
    (initCalls 3 initState0).1.loadCount = 1 ∧
    (initCalls 3 initState0).2 = List.replicate 3 0 ∧
    (completeInit (initCalls 3 initState0).1).ctxConstructions = 1 ∧
    ∃ c : Nat,
      getCtxResult (completeInit (initCalls 3 initState0).1) = Except.ok c ∧
      (initCalls 3 initState0).2.map
          (fun _ => getCtxResult (completeInit (initCalls 3 initState0).1))
        = List.replicate 3 (Except.ok c) :=
  C1_exactly_once_init 3 (by decide)

/-- C9. Stable virtual identity: `resolveId` is a pure function that maps
each of the three known symbolic ids to its fixed resolved id, and answers
`none` ("not mine") for every id outside the registry. -/
theorem C9_stable_virtual_identity :
    resolveId ids.css.id = some ids.css.resolved ∧
    resolveId ids.inlineCva.id = some ids.inlineCva.resolved ∧
    resolveId ids.compoundVariants.id = some ids.compoundVariants.resolved ∧
    ∀ id, id ≠ ids.css.id → id ≠ ids.inlineCva.id → id ≠ ids.compoundVariants.id →
      resolveId id = none := by
  refine ⟨by decide, by decide, by decide, ?_⟩
  intro id h1 h2 h3
  unfold resolveId
  rw [if_neg h1, if_neg h2, if_neg h3]

/-- C9 witness: an ordinary source-file id is not the registry's, and the
css id resolves to its fixed resolved id. -/
theorem C9_stable_virtual_identity_witness :
    resolveId "/proj/src/App.tsx" = none ∧
    resolveId "virtual:panda.css" = some "\x00virtual:panda.css" :=
  ⟨C9_stable_virtual_identity.2.2.2 "/proj/src/App.tsx" (by decide) (by decide) (by decide),
    C9_stable_virtual_identity.1⟩

/-- C10. `resolveOptions` returns `optimizeJs` equal to the raw input value
whenever one is provided: the locally computed normalized copy — whose
`pattern`, `recipe`, `jsx-factory` and `jsx-pattern` kinds default to the
`cva` field's value rather than to `'auto'` — is discarded and never affects
the returned options. -/
theorem C10_resolveOptions_discards_normalization :
    (∀ (options : PandaPluginOptions) (o : OptimizeJs),
        options.optimizeJs = some o → (resolveOptions options).optimizeJs = o) ∧
    ∀ m : OptimizeJsMap,
      m.pattern = none → m.recipe = none → m.jsxFactory = none → m.jsxPattern = none →
        (normalizeOptimizeJsMap m).pattern = some (m.cva.getD OptFlag.auto) ∧
        (normalizeOptimizeJsMap m).recipe = some (m.cva.getD OptFlag.auto) ∧
        (normalizeOptimizeJsMap m).jsxFactory = some (m.cva.getD OptFlag.auto) ∧
        (normalizeOptimizeJsMap m).jsxPattern = some (m.cva.getD OptFlag.auto) := by
  constructor
  · intro options o h
    simp [resolveOptions, h]
  · intro m h1 h2 h3 h4
    simp [normalizeOptimizeJsMap, h1, h2, h3, h4]

/-- C10 witness: with `optimizeJs = { cva: false }` the returned options
carry the raw one-key object, while the discarded normalized copy would have
defaulted `pattern` to `false` (the `cva` value), not to `'auto'`. -/
theorem C10_resolveOptions_discards_normalization_witness :
    (resolveOptions
        { cwd := none, configPath := none, outfile := none, «include» := none,
          «exclude» := none, optimizeCss := none,
          optimizeJs := some (OptimizeJs.map
            { css := none, cva := some OptFlag.disabled, pattern := none,
              recipe := none, jsxFactory := none, jsxPattern := none }) }).optimizeJs
      = OptimizeJs.map
          { css := none, cva := some OptFlag.disabled, pattern := none,
            recipe := none, jsxFactory := none, jsxPattern := none } ∧
    (normalizeOptimizeJsMap
        { css := none, cva := some OptFlag.disabled, pattern := none,
          recipe := none, jsxFactory := none, jsxPattern := none }).pattern
      = some OptFlag.disabled :=
  ⟨C10_resolveOptions_discards_normalization.1 _ _ rfl,
    (C10_resolveOptions_discards_normalization.2 _ rfl rfl rfl rfl).1⟩

/-- C2. Write/in-memory equivalence: the `load` hook, applied to the css
artifact's id (the resolved virtual id when `outfile` is unset, the output
path when set), returns exactly `toCss(createSheet(), options)` computed at
that instant; and when `outfile` is set, server start persists that same
text at the outfile path (the hot-update write path is covered by C5). The
two inequality hypotheses record that a real output path is distinct from
the NUL-prefixed helper ids. -/
theorem C2_load_write_equivalence (cva cmp : String) (st : ServerState)
    (h1 : st.outfile ≠ ids.inlineCva.resolved)
    (h2 : st.outfile ≠ ids.compoundVariants.resolved) :
    loadHook cva cmp st st.outfile = some (toCssNow st.ctx) ∧
    (st.outfile = ids.css.resolved →
      loadHook cva cmp st ids.css.resolved = some (toCssNow st.ctx)) ∧
    (st.outfile ≠ ids.css.resolved →
      lookupAssoc st.outfile ((configureServerStart st).1.fs) = some (toCssNow st.ctx) ∧
      (configureServerStart st).2.contains (Action.write st.outfile (toCssNow st.ctx))
        = true) := by
  refine ⟨?_, ?_, ?_⟩
  · simp [loadHook, h1, h2]
  · intro hof
    rw [← hof]
    simp [loadHook, h1, h2]
  · intro hof
    simp [configureServerStart, hof, lookupAssoc_setAssoc_self]

/-- C2 witness: in virtual mode loading the resolved css id yields the
instant css; in outfile mode loading the output path yields it and server
start persists it there. -/
theorem C2_load_write_equivalence_witness :
    loadHook "f" "g" stVirtual stVirtual.outfile = some (toCssNow stVirtual.ctx) ∧
    lookupAssoc stOutfile.outfile ((configureServerStart stOutfile).1.fs)
      = some (toCssNow stOutfile.ctx) :=
  ⟨(C2_load_write_equivalence "f" "g" stVirtual (by decide) (by decide)).1,
    ((C2_load_write_equivalence "f" "g" stOutfile (by decide) (by decide)).2.2
      (by decide)).1⟩

/-- C4. Dependency-change triggers reload: a change event for a file whose
absolute path is in the DependencySet (config path plus both dependency
lists, made absolute) makes the watcher reload the context — the Context
reference changes identity — and afterwards invalidate the artifact's
module-graph entry (present by hypothesis). -/
theorem C4_dependency_change_reloads (st : ServerState) (file : String)
    (hdep : ensureAbsolute file st.ctx.root ∈ sources st.ctx)
    (hmod : st.moduleGraph.contains st.outfile = true) :
    (onChange st file).1.ctx.ref ≠ st.ctx.ref ∧
    (onChange st file).2 = [Action.reload, Action.invalidate st.outfile] := by
  unfold onChange
  rw [if_pos hdep]
  simp only [hmod]
  refine ⟨?_, by simp⟩
  simp [reloadContext]

/-- C4 witness: a change to `panda.config.ts` under the project root
triggers reload-then-invalidate in outfile mode. -/
theorem C4_dependency_change_reloads_witness :
    (onChange stOutfile "panda.config.ts").1.ctx.ref ≠ stOutfile.ctx.ref ∧
    (onChange stOutfile "panda.config.ts").2
      = [Action.reload, Action.invalidate stOutfile.outfile] :=
  C4_dependency_change_reloads stOutfile "panda.config.ts" (by decide) (by decide)

/-- C5. Source-change recomputes without reload: a hot-update for a tracked
source file (in `Context.files`, not in the DependencySet, not the artifact
itself) leaves the Context reference unchanged and invalidates the
artifact's module-graph entry (present by hypothesis); when an outfile is
configured the freshly computed css is also written there, and the write
follows the invalidation. -/
theorem C5_source_change_recomputes_without_reload (st : ServerState) (file : String)
    (hout : file ≠ st.outfile)
    (htracked : hasAssoc file st.ctx.files = true)
    (hnotdep : ensureAbsolute file st.ctx.root ∉ sources st.ctx)
    (hmod : st.moduleGraph.contains st.outfile = true) :
    (handleHotUpdate st file).1.ctx = st.ctx ∧
    (st.outfile ≠ ids.css.resolved →
      (handleHotUpdate st file).2
          = [Action.invalidate st.outfile, Action.write st.outfile (toCssNow st.ctx)] ∧
      lookupAssoc st.outfile (handleHotUpdate st file).1.fs = some (toCssNow st.ctx)) ∧
    (st.outfile = ids.css.resolved →
      (handleHotUpdate st file).2 = [Action.invalidate st.outfile] ∧
      (handleHotUpdate st file).1 = st) := by
  unfold handleHotUpdate
  rw [if_neg hout]
  simp only [htracked, hmod]
  by_cases hof : st.outfile = ids.css.resolved
  · simp [hof]
  · simp [hof, lookupAssoc_setAssoc_self]

/-- C5 witness: a hot-update for the tracked source file in outfile mode
invalidates then rewrites the outfile, with the Context untouched. -/
theorem C5_source_change_recomputes_without_reload_witness :
    (handleHotUpdate stOutfile "/proj/src/App.tsx").1.ctx = stOutfile.ctx ∧
    (handleHotUpdate stOutfile "/proj/src/App.tsx").2
      = [Action.invalidate stOutfile.outfile,
          Action.write stOutfile.outfile (toCssNow stOutfile.ctx)] :=
  ⟨(C5_source_change_recomputes_without_reload stOutfile "/proj/src/App.tsx"
      (by decide) (by decide) (by decide) (by decide)).1,
    ((C5_source_change_recomputes_without_reload stOutfile "/proj/src/App.tsx"
      (by decide) (by decide) (by decide) (by decide)).2.1 (by decide)).1⟩

/-- C6. Irrelevant-change no-op: a change event for a file absent from both
the DependencySet and `Context.files` leaves both handlers as pure no-ops —
state unchanged, no reload, no recomputation, no invalidation (the empty
action trace). -/
theorem C6_irrelevant_change_noop (st : ServerState) (file : String)
    (hdep : ensureAbsolute file st.ctx.root ∉ sources st.ctx)
    (htracked : hasAssoc file st.ctx.files = false) :
    onChange st file = (st, []) ∧ handleHotUpdate st file = (st, []) := by
  constructor
  · simp [onChange, hdep]
  · by_cases h : file = st.outfile
    · simp [handleHotUpdate, h]
    · simp [handleHotUpdate, h, htracked]

/-- C6 witness: a change to an unrelated file is ignored by both handlers. -/
theorem C6_irrelevant_change_noop_witness :
    onChange stOutfile "/proj/README.md" = (stOutfile, []) ∧
    handleHotUpdate stOutfile "/proj/README.md" = (stOutfile, []) :=
  C6_irrelevant_change_noop stOutfile "/proj/README.md" (by decide) (by decide)

/-- C3 counterexample: with an outfile configured, a hot-update for the
tracked source file produces a trace that recomputes and writes the artifact
(`∃` a write action) yet performs the module-graph invalidation BEFORE the
write — violating "invalidation happens after the recomputation/write
completes, never before". -/
theorem C3_counterexample :
    (handleHotUpdate stOutfile "/proj/src/App.tsx").2.any Action.isWrite = true ∧
    noWriteAfterInvalidate (handleHotUpdate stOutfile "/proj/src/App.tsx").2 = false := by
  decide

/-- C3 amended: in the hot-update path the invalidation happens first and
the disk write (when an outfile is configured) follows it in the same
handler run; in the dependency-change path the reload happens first,
invalidation follows it, and no disk write is performed at all. -/
theorem C3_invalidate_precedes_write (st : ServerState) (file : String) :
    ((handleHotUpdate st file).2 = [] ∨
      (handleHotUpdate st file).2 = [Action.invalidate st.outfile] ∨
      (handleHotUpdate st file).2
        = [Action.invalidate st.outfile, Action.write st.outfile (toCssNow st.ctx)]) ∧
    ((onChange st file).2 = [] ∨
      (onChange st file).2 = [Action.reload] ∨
      (onChange st file).2 = [Action.reload, Action.invalidate st.outfile]) ∧
    (onChange st file).2.any Action.isWrite = false := by
  refine ⟨?_, ?_, ?_⟩
  · unfold handleHotUpdate
    split_ifs <;> simp
  · unfold onChange
    dsimp only
    split_ifs <;> simp
  · unfold onChange
    dsimp only
    split_ifs <;> simp [Action.isWrite]

/-- C7. Pre-transform bookkeeping: when the parse of the registered
(possibly user-transformed) code reports styling usage, `Context.files`
maps the file id to the original, pre-user-transform code, while the style
engine's source-file registry holds the user-transformed code for that
id. -/
theorem C7_pretransform_bookkeeping
    (ut : Option (String → String → UserTransformOut))
    (parseOf : String → String → Option ParseRes)
    (opt : OptimizeJs) (tp : String → String → TransformResult)
    (st : EngineState) (code id : String) (pr : ParseRes)
    (hp : parseOf id (applyUserTransform ut id code).code = some pr)
    (hne : pr.isEmpty = false) :
    lookupAssoc id (transform ut parseOf opt tp st code id).1.files = some code ∧
    lookupAssoc id (transform ut parseOf opt tp st code id).1.registry
      = some (applyUserTransform ut id code).code := by
  rw [transform_parse_some ut parseOf opt tp st code id pr hp]
  simp [hne, lookupAssoc_setAssoc_self]

/-- C7 witness: a user transform that prefixes the code; the registry gets
the prefixed text, `Context.files` the authored text. -/
theorem C7_pretransform_bookkeeping_witness :
    lookupAssoc "/proj/src/App.tsx"
        (transform utPrefix parseUsage OptimizeJs.auto pandaId engine0
          "const cls = css(red)" "/proj/src/App.tsx").1.files
      = some "const cls = css(red)" ∧
    lookupAssoc "/proj/src/App.tsx"
        (transform utPrefix parseUsage OptimizeJs.auto pandaId engine0
          "const cls = css(red)" "/proj/src/App.tsx").1.registry
      = some "use client;const cls = css(red)" :=
  C7_pretransform_bookkeeping utPrefix parseUsage OptimizeJs.auto pandaId engine0
    "const cls = css(red)" "/proj/src/App.tsx" { isEmpty := false } rfl rfl

/-- C8 counterexample: a transform whose parse yields no result leaves
`Context.files` unchanged and returns `null` — but it is NOT free of other
side effects: the engine's source-file registry changed (the file was
registered by `addSourceFile` before parsing). -/
theorem C8_counterexample :
    parseNone "/proj/b.ts" (applyUserTransform none "/proj/b.ts" "let x = 1").code
      = none ∧
    (transform none parseNone (OptimizeJs.flag false) pandaId engine0
        "let x = 1" "/proj/b.ts").2 = none ∧
    (transform none parseNone (OptimizeJs.flag false) pandaId engine0
        "let x = 1" "/proj/b.ts").1.files = engine0.files ∧
    (transform none parseNone (OptimizeJs.flag false) pandaId engine0
        "let x = 1" "/proj/b.ts").1 ≠ engine0 := by
  decide

/-- C8 amended: a transform invocation whose parse yields no result or no
styling usage leaves `Context.files` unchanged, and returns `null` when the
parse yields no result or output optimization is disabled; its one other
side effect is the unconditional registration of the (possibly
user-transformed) code under the file id in the engine's source-file
registry. -/
theorem C8_parse_skip_isolation
    (ut : Option (String → String → UserTransformOut))
    (parseOf : String → String → Option ParseRes)
    (opt : OptimizeJs) (tp : String → String → TransformResult)
    (st : EngineState) (code id : String)
    (hskip : parseOf id (applyUserTransform ut id code).code = none ∨
      ∃ pr, parseOf id (applyUserTransform ut id code).code = some pr ∧
        pr.isEmpty = true) :
    (transform ut parseOf opt tp st code id).1.files = st.files ∧
    (transform ut parseOf opt tp st code id).1.registry
      = setAssoc id (applyUserTransform ut id code).code st.registry ∧
    (parseOf id (applyUserTransform ut id code).code = none ∨
        opt = OptimizeJs.flag false →
      (transform ut parseOf opt tp st code id).2 = none) := by
  rcases hskip with hnone | ⟨pr, hsome, hempty⟩
  · rw [transform_parse_none ut parseOf opt tp st code id hnone]
    exact ⟨rfl, rfl, fun _ => rfl⟩
  · rw [transform_parse_some ut parseOf opt tp st code id pr hsome]
    simp only [hempty]
    by_cases hopt : opt = OptimizeJs.flag false
    · simp [hopt]
    · simp only [if_neg hopt]
      simp only [show (true = false) = False by simp]
      refine ⟨rfl, rfl, ?_⟩
      rintro (h | h)
      · rw [h] at hsome
        exact Option.noConfusion hsome
      · exact absurd h hopt

/-- C8 amended witness: a file that parses with no styling usage, with
optimization disabled — files untouched, `null` returned, registry gains the
registration. -/
theorem C8_parse_skip_isolation_witness :
    (transform none parseEmpty (OptimizeJs.flag false) pandaId engine0
        "let y = 2" "/proj/c.ts").1.files = engine0.files ∧
    (transform none parseEmpty (OptimizeJs.flag false) pandaId engine0
        "let y = 2" "/proj/c.ts").1.registry
      = setAssoc "/proj/c.ts"
          (applyUserTransform none "/proj/c.ts" "let y = 2").code engine0.registry ∧
    (parseEmpty "/proj/c.ts"
          (applyUserTransform none "/proj/c.ts" "let y = 2").code = none ∨
        (OptimizeJs.flag false : OptimizeJs) = OptimizeJs.flag false →
      (transform none parseEmpty (OptimizeJs.flag false) pandaId engine0
          "let y = 2" "/proj/c.ts").2 = none) :=
  C8_parse_skip_isolation none parseEmpty (OptimizeJs.flag false) pandaId engine0
    "let y = 2" "/proj/c.ts" (Or.inr ⟨{ isEmpty := true }, rfl, rfl⟩)

end Pandabox
